import Mathlib

/-!
Verification development for the uniteDefi support-tools crawler scripts.

The embedding models the two documentation-crawler scripts:

* src/support-tools/get-bynext-loop-doc-1inchdev.py
  (linked-list mode: repeatedly follow a single Next control), and
* src/support-tools/get-byNav-doc-1inchdev.py
  (target-list mode: visit a fixed list of named navigation buttons).

Browser effects are abstracted into environment records: the environment
answers, for each URL, the page title, the behaviour of the Next control,
and whether a just-written artifact file is visible on disk at a given
poll attempt.  All definitions are translated from the Python source.
-/

/-! Artifact name sanitizer, shared verbatim by both scripts:
    re.sub over the character class backslash / : * ? double-quote < > |,
    replacing each matching character with an underscore. -/

def illegalChars : List Char := ['\\', '/', ':', '*', '?', '\"', '<', '>', '|']

def sanitizeChar (c : Char) : Char := if c ∈ illegalChars then '_' else c

def safe_filename (s : String) : String := String.mk (s.data.map sanitizeChar)

/-- Python format f-string with 02d: zero-pad a page number to width two.
    Numbers of three or more digits are printed in full. -/
def pad2 (n : Nat) : String := if n < 10 then ("0") ++ toString n else toString n

/-- The linked-list script builds the base name as
    safe_filename of (formatted page number, underscore, title). -/
def linkedBaseName (title : String) (n : Nat) : String :=
  safe_filename (pad2 n ++ ("_") ++ title)

/-! The title transformation: Python str.replace removing every occurrence
    of the portal suffix from the page title (replacement by the empty
    string).  Implemented as a left-to-right scan over the characters with
    the list length as fuel; each step consumes at least one character, so
    the fuel never runs out on the initial call. -/

def startsWithChars : List Char → List Char → Bool
  | [], _ => true
  | _ :: _, [] => false
  | p :: ps, c :: cs => p == c && startsWithChars ps cs

def removeOccs (pat : List Char) : Nat → List Char → List Char
  | 0, l => l
  | _ + 1, [] => []
  | fuel + 1, c :: cs =>
    if startsWithChars pat (c :: cs) then removeOccs pat fuel (List.drop pat.length (c :: cs))
    else c :: removeOccs pat fuel cs

def TITLE_SUFFIX : String := " - 1inch Developer Portal"

def stripTitle (t : String) : String :=
  String.mk (removeOccs TITLE_SUFFIX.data t.data.length t.data)

/-! Incremental scroll, from scroll_to_bottom: the in-page loop scrolls by
    a fixed distance and re-reads document.body.scrollHeight before every
    iteration.  heights i is the value of scrollHeight observed at the
    i-th check.  The Python/JS loop has NO iteration cap; the fuel
    argument only truncates the model, so a result of none for every fuel
    value means the loop never exits.  On exit the model returns the
    number of completed scroll steps. -/

def scrollLoop (heights : Nat → Nat) (step : Nat) : Nat → Nat → Nat → Option Nat
  | 0, _, _ => none
  | fuel + 1, total, i =>
    if total < heights i then scrollLoop heights step fuel (total + step) (i + 1)
    else some i

/-- A height sequence that grows at every poll: at check i the measured
    scrollable height is 800 * i + 801, always one step ahead of the
    scrolled offset. -/
def growHeights (i : Nat) : Nat := 800 * i + 801

/-! File-materialization poll, from the two loops
    for _ in range(50): if os.path.exists(p) and os.path.getsize(p) > 0: break
    The poll runs at most 50 checks; its result affects nothing (the
    script falls through and continues either way). -/

def pollGo (readyF : Nat → Bool) : Nat → Nat → Nat
  | 0, i => i
  | fuel + 1, i => if readyF i then i else pollGo readyF fuel (i + 1)

/-- Number of poll checks performed before the file was seen (or 50 when
    it never appeared). -/
def pollAttempts (readyF : Nat → Bool) : Nat := pollGo readyF 50 0

/-! Linked-list mode crawler: scrape_1inch_docs of
    get-bynext-loop-doc-1inchdev.py. -/

/-- Output directory of the linked-list script. -/
def OUTPUT_DIR : String := "1inch_docs"

/-- In the source, STARTNUMBER is assigned four times in sequence
    (1, then 15, then 33, then 83); as in any Python module, the last
    assignment wins, so the run starts numbering pages at 83. -/
def STARTNUMBER : Nat := 83

/-- What the Next control does at a given URL: it is absent from the
    pagination region, or present but clicking it never changes the URL
    within the 10 s bound (wait_for_url times out), or clicking it makes
    the URL become the given value. -/
inductive NextControl
  | absent
  | stuck
  | navigatesTo (u : String)
deriving DecidableEq

/-- The environment a linked-list run interacts with: the start URL, the
    page title shown at each URL, the behaviour of the Next control at
    each URL, and whether a written file is visible on disk with non-zero
    size at a given poll attempt. -/
structure CrawlEnv where
  startUrl : String
  titleOf : String → String
  next : String → NextControl
  ready : String → Nat → Bool

/-- Replace the readiness oracle of an environment, keeping the rest. -/
def withReady (env : CrawlEnv) (r : String → Nat → Bool) : CrawlEnv :=
  { env with ready := r }

/-- A Visit Record: one successfully materialized page, its sequence
    number and the artifact files written for it (png, txt, pdf). -/
structure VisitRecord where
  url : String
  seq : Nat
  artifacts : List String
deriving DecidableEq

/-- Base name of the artifacts for a page: the source computes
    safe_filename of the zero-padded page number, an underscore, and the
    title with the portal suffix removed. -/
def baseName (env : CrawlEnv) (url : String) (n : Nat) : String :=
  linkedBaseName (stripTitle (env.titleOf url)) n

def imgPath (env : CrawlEnv) (url : String) (n : Nat) : String :=
  OUTPUT_DIR ++ ("/") ++ baseName env url n ++ (".png")

def txtPath (env : CrawlEnv) (url : String) (n : Nat) : String :=
  OUTPUT_DIR ++ ("/") ++ baseName env url n ++ (".txt")

def pdfPath (env : CrawlEnv) (url : String) (n : Nat) : String :=
  OUTPUT_DIR ++ ("/") ++ baseName env url n ++ (".pdf")

def matRecord (env : CrawlEnv) (url : String) (n : Nat) : VisitRecord :=
  { url := url, seq := n, artifacts := [imgPath env url n, txtPath env url n, pdfPath env url n] }

/-- Loop state: current URL, page counter, visited URLs (most recent
    first; only ever extended with a URL not already present), the Visit
    Records and the pdf_paths list accumulated so far.  The source
    appends both the png and the pdf path of every page to pdf_paths. -/
structure CrawlState where
  current : String
  pageNum : Nat
  visited : List String
  recs : List VisitRecord
  paths : List String
deriving DecidableEq

/-- Why the while-True loop ended.  fuelOut is an artifact of the model:
    the source loop has no iteration bound of its own. -/
inductive StopReason
  | cycleDetected
  | endOfDocument
  | navTimeout
  | fuelOut
deriving DecidableEq

structure RunResult where
  records : List VisitRecord
  pdfPaths : List String
  reason : StopReason
deriving DecidableEq

inductive StepOut
  | stopped (r : RunResult)
  | next (s : CrawlState)
deriving DecidableEq

/-- One iteration of the while-True loop, in source order: cycle check on
    the current URL against the visited set, then materialization
    (screenshot, text dump, bounded poll, pdf render, bounded poll — the
    poll results influence nothing, exactly as in the source, where the
    range-50 loop falls through), then the Next lookup and click. -/
def crawlStep (env : CrawlEnv) (s : CrawlState) : StepOut :=
  if s.current ∈ s.visited then
    .stopped { records := s.recs, pdfPaths := s.paths, reason := .cycleDetected }
  else
    let img := imgPath env s.current s.pageNum
    let pdf := pdfPath env s.current s.pageNum
    let _pollImg := pollAttempts (env.ready img)
    let _pollPdf := pollAttempts (env.ready pdf)
    let recs1 := s.recs ++ [matRecord env s.current s.pageNum]
    let paths1 := s.paths ++ [img, pdf]
    match env.next s.current with
    | .absent => .stopped { records := recs1, pdfPaths := paths1, reason := .endOfDocument }
    | .stuck => .stopped { records := recs1, pdfPaths := paths1, reason := .navTimeout }
    | .navigatesTo u =>
      if u = s.current then .stopped { records := recs1, pdfPaths := paths1, reason := .navTimeout }
      else .next { current := u, pageNum := s.pageNum + 1, visited := s.current :: s.visited,
                   recs := recs1, paths := paths1 }

/-- Initial state: positioned at the start URL, counter at STARTNUMBER,
    nothing visited, nothing produced. -/
def initState (env : CrawlEnv) : CrawlState :=
  { current := env.startUrl, pageNum := STARTNUMBER, visited := [], recs := [], paths := [] }

/-- The whole run, with fuel bounding the number of loop iterations the
    model unwinds (the source loop itself is unbounded). -/
def runLoop (env : CrawlEnv) : Nat → CrawlState → RunResult
  | 0, s => { records := s.recs, pdfPaths := s.paths, reason := .fuelOut }
  | fuel + 1, s =>
    match crawlStep env s with
    | .stopped r => r
    | .next s1 => runLoop env fuel s1

/-- Exactly N successful next-steps: apply N loop iterations, each of
    which must end in a successful navigation; none if the run stops
    earlier. -/
def runSteps (env : CrawlEnv) : Nat → CrawlState → Option CrawlState
  | 0, s => some s
  | n + 1, s =>
    match crawlStep env s with
    | .stopped _ => none
    | .next s1 => runSteps env n s1

/-! Target-list mode crawler: crawl_all_by_buttons of
    get-byNav-doc-1inchdev.py. -/

/-- Output directory of the target-list script. -/
def NAV_DIR : String := "1inch_docs_textcrawl"

/-- One artifact set written for a located, non-duplicate label: the
    target-list script uses the sanitized label alone as base name (no
    sequence prefix) and writes a png and a txt file. -/
structure NavRecord where
  label : String
  url : String
  artifacts : List String
deriving DecidableEq

def navRecord (label : String) (url : String) : NavRecord :=
  { label := label, url := url,
    artifacts := [NAV_DIR ++ ("/") ++ safe_filename label ++ (".png"),
                  NAV_DIR ++ ("/") ++ safe_filename label ++ (".txt")] }

/-- The environment of a target-list run: clicking the button with a
    given accessible name either fails to locate it within the 5 s bound
    (none) or lands the page on a URL (some). -/
structure NavEnv where
  click : String → Option String

/-- The per-label loop of crawl_all_by_buttons, in source order: locate
    and click the button (location failure skips the label), read the
    URL, skip silently when the URL is already in the visited set,
    otherwise record it and write the two artifacts. -/
def crawlButtons (env : NavEnv) : List String → List String → List NavRecord → List NavRecord
  | [], _, recs => recs
  | label :: rest, visited, recs =>
    match env.click label with
    | none => crawlButtons env rest visited recs
    | some url =>
      if url ∈ visited then crawlButtons env rest visited recs
      else crawlButtons env rest (url :: visited) (recs ++ [navRecord label url])

/-! Concrete environments and states used to evaluate the theorems on
    explicit inputs. -/

def urlA : String := "a"

def urlB : String := "b"

def titleT : String := "T"

/-- Two pages: the start page navigates to a second page whose Next
    control is absent.  Files always appear on the first poll. -/
def envTwoPages : CrawlEnv :=
  { startUrl := urlA, titleOf := fun _ => titleT,
    next := fun u => if u = urlA then NextControl.navigatesTo urlB else NextControl.absent,
    ready := fun _ _ => true }

/-- The state reached from envTwoPages after one successful next-step. -/
def sOneStep : CrawlState :=
  { current := urlB, pageNum := 84, visited := [urlA],
    recs := [matRecord envTwoPages urlA 83],
    paths := [imgPath envTwoPages urlA 83, pdfPath envTwoPages urlA 83] }

/-- Same two pages, but no written file ever appears on disk within the
    bounded poll. -/
def envNeverReady : CrawlEnv :=
  { startUrl := urlA, titleOf := fun _ => titleT,
    next := fun u => if u = urlA then NextControl.navigatesTo urlB else NextControl.absent,
    ready := fun _ _ => false }

/-- Every Next click lands back on the start URL, the only member of the
    Visited Set at click time. -/
def envAlwaysBack : CrawlEnv :=
  { startUrl := urlA, titleOf := fun _ => titleT,
    next := fun _ => NextControl.navigatesTo urlA,
    ready := fun _ _ => true }

/-- A state whose current URL is already in the Visited Set. -/
def sRevisited : CrawlState :=
  { current := urlA, pageNum := STARTNUMBER, visited := [urlA], recs := [], paths := [] }

/-- The Next control is absent from the very first page. -/
def envNoNext : CrawlEnv :=
  { startUrl := urlA, titleOf := fun _ => titleT,
    next := fun _ => NextControl.absent,
    ready := fun _ _ => true }

/-- Clicking Next never changes the URL within the timeout. -/
def envStuck : CrawlEnv :=
  { startUrl := urlA, titleOf := fun _ => titleT,
    next := fun _ => NextControl.stuck,
    ready := fun _ _ => true }

/-- A mid-run state with one page already materialized, about to process
    a second page. -/
def sMidRun : CrawlState :=
  { current := urlB, pageNum := 84, visited := [urlA],
    recs := [matRecord envStuck urlA 83],
    paths := [imgPath envStuck urlA 83, pdfPath envStuck urlA 83] }

def lblOverview : String := "Overview"

def lblMissing : String := "MissingLabel"

def lblAuth : String := "Authentication"

def urlU : String := "u1"

def urlV : String := "u2"

/-- Overview and Authentication are located and land on distinct URLs;
    MissingLabel cannot be located within the bound. -/
def envTwoFound : NavEnv :=
  { click := fun l =>
      if l = lblOverview then some urlU
      else if l = lblAuth then some urlV
      else none }

/-- Overview and Authentication are located but land on the same URL;
    MissingLabel cannot be located within the bound. -/
def envSameUrl : NavEnv :=
  { click := fun l =>
      if l = lblMissing then none
      else if l = lblOverview then some urlU
      else if l = lblAuth then some urlU
      else none }

/-- Every label is located and lands on the same URL. -/
def envAllSame : NavEnv := { click := fun _ => some urlU }

/-! Theorems. -/

/-- The sanitizer map is idempotent on characters: the replacement
    character is not itself illegal, and legal characters are fixed. -/
theorem sanitizeChar_idem (c : Char) : sanitizeChar (sanitizeChar c) = sanitizeChar c := by
  by_cases h : c ∈ illegalChars
  · simp [sanitizeChar, h]
  · simp [sanitizeChar, h]

/-- Claim C2: the artifact-name sanitizer replaces characters one for one
    (the output is the character-wise image of the input, so it is the
    same length), and for title Quote-colon-space-Build-question-mark with
    sequence number 7 the linked-list base name is exactly
    07_Quote_ Build_ (zero-padded 2-digit prefix, illegal characters
    replaced 1:1 with underscores).  safe_filename and linkedBaseName are
    plain functions of their arguments, hence deterministic and free of
    any effect. -/
theorem C2_sanitizer_behavior :
    linkedBaseName ("Quote: Build?") 7 = ("07_Quote_ Build_") ∧
    ∀ s : String, (safe_filename s).data = s.data.map sanitizeChar ∧
      (safe_filename s).length = s.length := by
  refine ⟨rfl, fun s => ⟨rfl, ?_⟩⟩
  show (s.data.map sanitizeChar).length = s.data.length
  exact List.length_map s.data sanitizeChar

/-- Claim C9: the sanitizer is idempotent: applying safe_filename twice
    yields the same string as applying it once. -/
theorem C9_sanitizer_idempotent (s : String) :
    safe_filename (safe_filename s) = safe_filename s := by
  have hf : sanitizeChar ∘ sanitizeChar = sanitizeChar := funext sanitizeChar_idem
  show String.mk ((s.data.map sanitizeChar).map sanitizeChar) = String.mk (s.data.map sanitizeChar)
  rw [List.map_map, hf]

/-- On the growing height sequence the scroll loop never exits: after any
    number of iterations the scrolled offset is still below the measured
    height. -/
theorem scrollLoop_grow_none (fuel : Nat) :
    ∀ i : Nat, scrollLoop growHeights 800 fuel (800 * i) i = none := by
  induction fuel with
  | zero => intro i; rfl
  | succ f ih =>
    intro i
    show (if 800 * i < growHeights i then scrollLoop growHeights 800 f (800 * i + 800) (i + 1)
          else some i) = none
    rw [if_pos]
    · have h8 : 800 * i + 800 = 800 * (i + 1) := by ring
      rw [h8]
      exact ih (i + 1)
    · show 800 * i < 800 * i + 801
      omega

/-- Claim C3: the incremental-scroll routine of the source has no
    iteration cap at all: on a height sequence that grows at every poll
    the loop body keeps running, so for EVERY bound on the number of
    iterations the loop has still not exited.  This refutes the claimed
    property (at most a fixed maximum number of scroll steps before
    giving up) and confirms the latent infinite-loop risk the spec flags:
    the code, as written, loops forever on such a page. -/
theorem C3_scroll_lacks_iteration_cap (fuel : Nat) :
    scrollLoop growHeights 800 fuel 0 0 = none := by
  have h := scrollLoop_grow_none fuel 0
  simpa using h

/-- The poll loop performs at most 50 checks, whatever the file does. -/
theorem pollGo_le (readyF : Nat → Bool) :
    ∀ fuel i : Nat, pollGo readyF fuel i ≤ i + fuel := by
  intro fuel
  induction fuel with
  | zero => intro i; simp [pollGo]
  | succ f ih =>
    intro i
    show (if readyF i then i else pollGo readyF f (i + 1)) ≤ i + (f + 1)
    split
    · omega
    · have h := ih (i + 1)
      omega

theorem pollAttempts_le (readyF : Nat → Bool) : pollAttempts readyF ≤ 50 := by
  have h := pollGo_le readyF 50 0
  simpa [pollAttempts] using h

/-- Characterization of a successful next-step: it can only happen when
    the current URL was not yet visited, and it extends the visited list
    by the current URL, the records by the Visit Record of the current
    page, and advances the page counter by one. -/
theorem crawlStep_next_spec (env : CrawlEnv) (s s1 : CrawlState)
    (h : crawlStep env s = StepOut.next s1) :
    s.current ∉ s.visited ∧ s1.pageNum = s.pageNum + 1 ∧
    s1.visited = s.current :: s.visited ∧
    s1.recs = s.recs ++ [matRecord env s.current s.pageNum] := by
  by_cases hm : s.current ∈ s.visited
  · simp [crawlStep, hm] at h
  · refine ⟨hm, ?_⟩
    cases hn : env.next s.current with
    | absent => simp [crawlStep, hm, hn] at h
    | stuck => simp [crawlStep, hm, hn] at h
    | navigatesTo u =>
      by_cases hu : u = s.current
      · simp [crawlStep, hm, hn, hu] at h
      · simp [crawlStep, hm, hn, hu] at h
        rw [← h]
        exact ⟨rfl, rfl, rfl⟩

/-- Invariant of successful stepping: N successful next-steps from any
    state with a duplicate-free visited list grow the visited list by
    exactly N entries (keeping it duplicate-free), append exactly N Visit
    Records whose sequence numbers continue the page counter gaplessly,
    and advance the page counter by N. -/
theorem runSteps_spec (env : CrawlEnv) :
    ∀ (N : Nat) (s0 s : CrawlState), runSteps env N s0 = some s → s0.visited.Nodup →
      s.visited.length = s0.visited.length + N ∧
      s.recs.length = s0.recs.length + N ∧
      s.recs.map VisitRecord.seq = s0.recs.map VisitRecord.seq ++ List.range' s0.pageNum N ∧
      s.pageNum = s0.pageNum + N ∧
      s.visited.Nodup := by
  intro N
  induction N with
  | zero =>
    intro s0 s h h0
    simp [runSteps] at h
    rw [← h]
    simp [h0]
  | succ n ih =>
    intro s0 s h h0
    rw [runSteps] at h
    cases hc : crawlStep env s0 with
    | stopped r => rw [hc] at h; simp at h
    | next s1 =>
      rw [hc] at h
      obtain ⟨hmem, hpn, hvis, hrecs⟩ := crawlStep_next_spec env s0 s1 hc
      have h1 : s1.visited.Nodup := by
        rw [hvis]
        exact List.nodup_cons.mpr ⟨hmem, h0⟩
      obtain ⟨iv, ir, im, ip, ind⟩ := ih s1 s h h1
      refine ⟨?_, ?_, ?_, ?_, ind⟩
      · rw [iv, hvis]
        simp
        omega
      · rw [ir, hrecs]
        simp
        omega
      · rw [im, hrecs, hpn, List.map_append]
        have hr : List.range' s0.pageNum (n + 1) = s0.pageNum :: List.range' (s0.pageNum + 1) n := rfl
        simp [hr, matRecord]
      · omega

/-- Claim C1 (amended): in linked-list mode, after N successful
    next-steps the Visited Set has size exactly N (the visited list is
    duplicate-free, so its length is the set size) and the N Visit
    Records carry sequence numbers exactly
    STARTNUMBER, STARTNUMBER + 1, ..., STARTNUMBER + N - 1 — strictly
    increasing and gapless.  They equal 1..N only when STARTNUMBER is 1;
    the final assignment in the source sets STARTNUMBER to 83. -/
theorem C1_visited_size_and_gapless_seq (env : CrawlEnv) (N : Nat) (s : CrawlState)
    (h : runSteps env N (initState env) = some s) :
    s.visited.length = N ∧ s.recs.length = N ∧
    s.recs.map VisitRecord.seq = List.range' STARTNUMBER N ∧ s.visited.Nodup := by
  obtain ⟨h1, h2, h3, _, h5⟩ := runSteps_spec env N (initState env) s h (by simp [initState])
  simp [initState] at h1 h2 h3
  exact ⟨h1, h2, h3, h5⟩

/-- Claim C1, original wording, refuted on a concrete input: a run of one
    successful next-step assigns sequence number 83 (the source value of
    STARTNUMBER) to its single Visit Record, not 1. -/
theorem C1_counterexample_seq_not_one :
    Option.map (fun s => s.recs.map VisitRecord.seq) (runSteps envTwoPages 1 (initState envTwoPages)) =
      some [83] ∧ some [83] ≠ some (List.range' 1 1) :=
  ⟨rfl, by decide⟩

/-- Witness for C1 at a concrete two-page environment and N equal 1. -/
theorem C1_witness :
    sOneStep.visited.length = 1 ∧ sOneStep.recs.length = 1 ∧
    sOneStep.recs.map VisitRecord.seq = List.range' STARTNUMBER 1 ∧ sOneStep.visited.Nodup :=
  C1_visited_size_and_gapless_seq envTwoPages 1 sOneStep rfl

/-- The file-readiness oracle cannot influence a loop iteration: the two
    bounded polls are executed and their results dropped, exactly as in
    the source. -/
theorem crawlStep_withReady (env : CrawlEnv) (r : String → Nat → Bool) (s : CrawlState) :
    crawlStep (withReady env r) s = crawlStep env s := rfl

/-- The whole run is likewise independent of file readiness. -/
theorem runLoop_withReady (env : CrawlEnv) (r : String → Nat → Bool) :
    ∀ (fuel : Nat) (s : CrawlState), runLoop (withReady env r) fuel s = runLoop env fuel s := by
  intro fuel
  induction fuel with
  | zero => intro s; rfl
  | succ f ih =>
    intro s
    show (match crawlStep (withReady env r) s with
          | StepOut.stopped t => t
          | StepOut.next s1 => runLoop (withReady env r) f s1) =
         (match crawlStep env s with
          | StepOut.stopped t => t
          | StepOut.next s1 => runLoop env f s1)
    rw [crawlStep_withReady]
    cases crawlStep env s with
    | stopped t => rfl
    | next s1 => exact ih s1

/-- Claim C4 (amended): the existence/size poll after each capture is
    bounded (at most 50 checks), but exhausting it does NOT abort the
    run: the poll result is discarded, the artifact path is still
    appended, and the crawler proceeds to the next page.  Records, paths
    and stop reason of a run are entirely independent of whether any file
    ever appears on disk. -/
theorem C4_poll_bounded_and_never_aborts :
    (∀ (env : CrawlEnv) (r : String → Nat → Bool) (fuel : Nat) (s : CrawlState),
        runLoop (withReady env r) fuel s = runLoop env fuel s) ∧
    (∀ readyF : Nat → Bool, pollAttempts readyF ≤ 50) :=
  ⟨fun env r fuel s => runLoop_withReady env r fuel s, fun readyF => pollAttempts_le readyF⟩

/-- Claim C4, original wording, refuted on a concrete input: in a
    two-page environment where no written file ever appears on disk, the
    run still materializes both pages and ends with end-of-document — it
    continues to the next page instead of aborting. -/
theorem C4_counterexample_run_continues :
    (runLoop envNeverReady 10 (initState envNeverReady)).records.length = 2 ∧
    (runLoop envNeverReady 10 (initState envNeverReady)).reason = StopReason.endOfDocument :=
  ⟨rfl, rfl⟩

/-- Claim C5 (amended): the visited-set membership check does happen
    before each page is materialized (a state whose current URL is
    already visited stops with cycle-detected and creates no new Visit
    Record); but in a run where every Next click yields a URL already in
    the Visited Set, the first click necessarily yields the current URL
    (the only visited one), so the wait for the URL to change times out
    and the run stops after that one click with reason navigation-timeout
    — not cycle-detected — having produced exactly one Visit Record. -/
theorem C5_always_visited_times_out (env : CrawlEnv) (fuel : Nat)
    (h : env.next env.startUrl = NextControl.navigatesTo env.startUrl) :
    runLoop env (fuel + 1) (initState env) =
      { records := [matRecord env env.startUrl STARTNUMBER],
        pdfPaths := [imgPath env env.startUrl STARTNUMBER, pdfPath env env.startUrl STARTNUMBER],
        reason := StopReason.navTimeout } ∧
    (∀ s : CrawlState, s.current ∈ s.visited →
        crawlStep env s =
          StepOut.stopped { records := s.recs, pdfPaths := s.paths, reason := StopReason.cycleDetected }) := by
  constructor
  · simp [runLoop, crawlStep, initState, h]
  · intro s hs
    simp [crawlStep, hs]

/-- Claim C5, original wording, refuted on a concrete input: in the
    environment where every Next click lands back on the start URL, the
    run ends with navigation-timeout, which differs from cycle-detected
    (and one Visit Record is produced). -/
theorem C5_counterexample_reason_is_timeout :
    (runLoop envAlwaysBack 10 (initState envAlwaysBack)).reason = StopReason.navTimeout ∧
    (runLoop envAlwaysBack 10 (initState envAlwaysBack)).records.length = 1 ∧
    StopReason.navTimeout ≠ StopReason.cycleDetected :=
  ⟨rfl, rfl, by decide⟩

/-- Witness for C5 at the concrete always-back environment, including
    the cycle-check conjunct at a concrete revisited state. -/
theorem C5_witness :
    (runLoop envAlwaysBack (9 + 1) (initState envAlwaysBack) =
      { records := [matRecord envAlwaysBack urlA STARTNUMBER],
        pdfPaths := [imgPath envAlwaysBack urlA STARTNUMBER, pdfPath envAlwaysBack urlA STARTNUMBER],
        reason := StopReason.navTimeout }) ∧
    (crawlStep envAlwaysBack sRevisited =
      StepOut.stopped { records := sRevisited.recs, pdfPaths := sRevisited.paths,
                        reason := StopReason.cycleDetected }) :=
  ⟨(C5_always_visited_times_out envAlwaysBack 9 rfl).1,
   (C5_always_visited_times_out envAlwaysBack 9 rfl).2 sRevisited (by decide)⟩

/-- Claim C6: if the Next control is absent from the first page, the run
    terminates with end-of-document immediately after materializing that
    page: exactly one Visit Record exists, for the start URL with
    sequence number STARTNUMBER, and its artifacts were produced (the
    capture precedes the Next lookup in the iteration). -/
theorem C6_no_next_on_first_page (env : CrawlEnv) (fuel : Nat)
    (h : env.next env.startUrl = NextControl.absent) :
    runLoop env (fuel + 1) (initState env) =
      { records := [matRecord env env.startUrl STARTNUMBER],
        pdfPaths := [imgPath env env.startUrl STARTNUMBER, pdfPath env env.startUrl STARTNUMBER],
        reason := StopReason.endOfDocument } := by
  simp [runLoop, crawlStep, initState, h]

/-- Witness for C6 at the concrete no-Next environment. -/
theorem C6_witness :
    runLoop envNoNext (9 + 1) (initState envNoNext) =
      { records := [matRecord envNoNext urlA STARTNUMBER],
        pdfPaths := [imgPath envNoNext urlA STARTNUMBER, pdfPath envNoNext urlA STARTNUMBER],
        reason := StopReason.endOfDocument } :=
  C6_no_next_on_first_page envNoNext 9 rfl

/-- Claim C8: when the bounded wait for the URL to change after clicking
    Next times out, the run ends with navigation-timeout and returns all
    artifact paths produced so far — everything accumulated before this
    page plus the png and pdf of the page just captured; partial results
    are not discarded. -/
theorem C8_timeout_keeps_partial_results (env : CrawlEnv) (fuel : Nat) (s : CrawlState)
    (h1 : s.current ∉ s.visited) (h2 : env.next s.current = NextControl.stuck) :
    runLoop env (fuel + 1) s =
      { records := s.recs ++ [matRecord env s.current s.pageNum],
        pdfPaths := s.paths ++ [imgPath env s.current s.pageNum, pdfPath env s.current s.pageNum],
        reason := StopReason.navTimeout } := by
  simp [runLoop, crawlStep, h1, h2]

/-- Witness for C8 at a concrete mid-run state that already holds one
    page of results. -/
theorem C8_witness :
    runLoop envStuck (4 + 1) sMidRun =
      { records := sMidRun.recs ++ [matRecord envStuck sMidRun.current sMidRun.pageNum],
        pdfPaths := sMidRun.paths ++
          [imgPath envStuck sMidRun.current sMidRun.pageNum,
           pdfPath envStuck sMidRun.current sMidRun.pageNum],
        reason := StopReason.navTimeout } :=
  C8_timeout_keeps_partial_results envStuck 4 sMidRun (by decide) rfl

/-- Claim C7 (amended): in target-list mode a label whose control cannot
    be located within the bounded wait is skipped non-fatally and
    processing continues in order: with labels Overview, MissingLabel,
    Authentication where only MissingLabel cannot be located, and where
    the two located labels land on distinct URLs, exactly two artifact
    sets are produced, for Overview and Authentication in that order.
    (If both located labels land on the same URL, the second is dropped
    by the URL dedup of the script and only one record results.) -/
theorem C7_missing_label_skipped (env : NavEnv) (u1 u2 : String)
    (h1 : env.click lblOverview = some u1)
    (h2 : env.click lblMissing = none)
    (h3 : env.click lblAuth = some u2)
    (hne : u1 ≠ u2) :
    crawlButtons env [lblOverview, lblMissing, lblAuth] [] [] =
      [navRecord lblOverview u1, navRecord lblAuth u2] := by
  simp [crawlButtons, h1, h2, h3, hne.symm]

/-- Claim C7, original wording, refuted on a concrete input: when
    Overview and Authentication both land on the same URL (and only
    MissingLabel cannot be located), the run produces one record, not
    two: the URL dedup suppresses the second. -/
theorem C7_counterexample_same_url :
    crawlButtons envSameUrl [lblOverview, lblMissing, lblAuth] [] [] =
      [navRecord lblOverview urlU] ∧
    ([navRecord lblOverview urlU].length ≠ 2) :=
  ⟨rfl, by decide⟩

/-- Witness for C7 at a concrete environment with distinct landing
    URLs. -/
theorem C7_witness :
    crawlButtons envTwoFound [lblOverview, lblMissing, lblAuth] [] [] =
      [navRecord lblOverview urlU, navRecord lblAuth urlV] :=
  C7_missing_label_skipped envTwoFound urlU urlV rfl rfl rfl (by decide)

/-- URL-dedup invariant of the target-list loop: starting from records
    whose URLs are duplicate-free and all already in the visited list,
    the final records still have pairwise distinct URLs. -/
theorem crawlButtons_urls_nodup (env : NavEnv) :
    ∀ (labels visited : List String) (recs : List NavRecord),
      (recs.map NavRecord.url).Nodup →
      (∀ v ∈ recs.map NavRecord.url, v ∈ visited) →
      ((crawlButtons env labels visited recs).map NavRecord.url).Nodup := by
  intro labels
  induction labels with
  | nil =>
    intro visited recs h1 _
    simpa [crawlButtons] using h1
  | cons label rest ih =>
    intro visited recs h1 h2
    cases hc : env.click label with
    | none =>
      simp only [crawlButtons, hc]
      exact ih visited recs h1 h2
    | some url =>
      simp only [crawlButtons, hc]
      by_cases hv : url ∈ visited
      · rw [if_pos hv]
        exact ih visited recs h1 h2
      · rw [if_neg hv]
        apply ih (url :: visited) (recs ++ [navRecord label url])
        · rw [List.map_append]
          have hnotin : url ∉ recs.map NavRecord.url := fun hmem => hv (h2 url hmem)
          simp [navRecord, List.nodup_append, h1, hnotin]
        · intro v hvmem
          rw [List.map_append] at hvmem
          rcases List.mem_append.mp hvmem with hin | hin
          · exact List.mem_cons_of_mem url (h2 v hin)
          · simp [navRecord] at hin
            rw [hin]
            exact List.mem_cons_self url visited

/-- Claim C10: target-list mode deduplicates by URL: clicking a label
    that lands on a URL already in the visited set changes nothing (no
    record, hence no artifact paths, are created) and the loop continues
    with the remaining labels; consequently the URLs of the records of a
    whole run are pairwise distinct — each distinct URL yields at most
    one artifact set per run. -/
theorem C10_url_dedup :
    (∀ (env : NavEnv) (label : String) (rest : List String) (visited : List String)
        (recs : List NavRecord) (u : String),
        env.click label = some u → u ∈ visited →
        crawlButtons env (label :: rest) visited recs = crawlButtons env rest visited recs) ∧
    (∀ (env : NavEnv) (labels : List String),
        ((crawlButtons env labels [] []).map NavRecord.url).Nodup) := by
  constructor
  · intro env label rest visited recs u hc hv
    simp [crawlButtons, hc, hv]
  · intro env labels
    exact crawlButtons_urls_nodup env labels [] [] (by simp) (by simp)

/-- Witness for C10: a duplicate landing URL leaves the run unchanged,
    and a concrete run has duplicate-free record URLs. -/
theorem C10_witness :
    (crawlButtons envAllSame [lblOverview, lblMissing] [urlU] [] =
      crawlButtons envAllSame [lblMissing] [urlU] []) ∧
    ((crawlButtons envAllSame [lblOverview, lblAuth] [] []).map NavRecord.url).Nodup :=
  ⟨C10_url_dedup.1 envAllSame lblOverview [lblMissing] [urlU] [] urlU rfl (by decide),
   C10_url_dedup.2 envAllSame [lblOverview, lblAuth]⟩
